import Mathlib

/-!
Verification development for the TutorX user-progress and entitlement state
machine.  The definitions below are shallow embeddings of the TypeScript
sources: `types.ts` (data model), the app-level transition functions
`checkAndResetDailyLimit`, `incrementQuestionCount`, `recordActivity`
(App.tsx), the chat gating `hasExceededLimit` / `handleSendMessage`
(LessonView.tsx), `isLevelLocked` (Dashboard.tsx) and the document-analysis
gate (Profile.tsx).  JavaScript numbers are modelled as `Nat` for counters,
scores and progress (the code only ever adds to them starting from 0) and as
`Int` for millisecond timestamps (the code subtracts them).  The JS
falsy-or-default idiom `x || 0` is the identity on these integer models
(since `0 || 0 = 0`), and optional fields are modelled with `Option`.
-/

namespace TutorX

/-- `DifficultyLevel` enum from types.ts. -/
inductive DifficultyLevel where
  | BEGINNER
  | INTERMEDIATE
  | ADVANCED
deriving DecidableEq, Repr

/-- `SubscriptionTier` enum from types.ts. -/
inductive SubscriptionTier where
  | FREE
  | PREMIUM
  | PRO
deriving DecidableEq, Repr

/-- `QuizScoreRecord` interface from types.ts. -/
structure QuizScoreRecord where
  topic : String
  score : Nat
  date : Int
  difficulty : DifficultyLevel
deriving DecidableEq, Repr

/-- `DocumentAnalysis` interface from types.ts. -/
structure DocumentAnalysis where
  fileName : String
  analysis : String
  date : Int
deriving DecidableEq, Repr

/-- `UserProfile` interface from types.ts. -/
structure UserProfile where
  email : String
  displayName : Option String
  learningProgress : Nat
  completedTopics : List String
  quizScores : List QuizScoreRecord
  tier : SubscriptionTier
  streak : Nat
  lastActiveDate : Option Int
  weakTopics : List String
  preferredLevel : String
  examType : Option String
  dailyQuestionCount : Nat
  lastQuestionResetDate : Int
  uploadedDocuments : List DocumentAnalysis
deriving DecidableEq, Repr

/-- The JS expression `[...new Set(list)]`: deduplicate a list keeping the
first occurrence of each element, preserving insertion order (JS `Set`
iteration order). -/
def jsSetDedup (l : List String) : List String :=
  l.foldl (fun acc x => if x ∈ acc then acc else acc ++ [x]) []

/-- The `isNewDay` test of `recordActivity` (App.tsx line 431-432):
`!user.lastActiveDate || new Date(user.lastActiveDate).toDateString() !==
new Date(now).toDateString()`.  `!user.lastActiveDate` is true when the
field is `undefined` (modelled `none`) or the falsy timestamp `0`.
`dateOf` abstracts `t => new Date(t).toDateString()`, mapping a millisecond
timestamp to an identifier of its local calendar date. -/
def jsIsNewDay (dateOf : Int → Int) (lastActiveDate : Option Int) (now : Int) : Bool :=
  match lastActiveDate with
  | none => true
  | some d => d == 0 || dateOf d != dateOf now

/-- `recordActivity` from App.tsx (lines 427-460), as the pure profile
transition: the lesson topic comes from `activeLesson.topic`, `now` from
`Date.now()`, and `difficulty` from `activeDifficulty`. -/
def recordActivity (dateOf : Int → Int) (p : UserProfile) (topic : String)
    (score : Nat) (difficulty : DifficultyLevel) (isMasteryOnly : Bool)
    (now : Int) : UserProfile :=
  let isNewDay := jsIsNewDay dateOf p.lastActiveDate now
  let newScoreRecord : QuizScoreRecord :=
    { topic := topic, score := score, date := now, difficulty := difficulty }
  let weakTopics :=
    if score < 70 ∧ topic ∉ p.weakTopics then p.weakTopics ++ [topic]
    else if 85 ≤ score then p.weakTopics.filter (fun t => t != topic)
    else p.weakTopics
  { p with
    learningProgress := min 100 (p.learningProgress + (if isMasteryOnly then 2 else 5)),
    completedTopics := jsSetDedup (p.completedTopics ++ [topic]),
    quizScores := p.quizScores ++ [newScoreRecord],
    streak := if isNewDay then p.streak + 1 else (if p.streak = 0 then 1 else p.streak),
    lastActiveDate := some now,
    weakTopics := weakTopics }

/-- `incrementQuestionCount` from App.tsx (lines 421-425):
`dailyQuestionCount: (user.dailyQuestionCount || 0) + 1` (`|| 0` is the
identity on `Nat`). -/
def incrementQuestionCount (p : UserProfile) : UserProfile :=
  { p with dailyQuestionCount := p.dailyQuestionCount + 1 }

/-- `checkAndResetDailyLimit` from App.tsx (lines 334-347); the spec calls
it `resetDailyQuotaIfExpired`.  `lastReset := profile.lastQuestionResetDate
|| 0` is the identity on `Int`. -/
def checkAndResetDailyLimit (p : UserProfile) (now : Int) : UserProfile :=
  let lastReset := p.lastQuestionResetDate
  let twentyFourHours : Int := 24 * 60 * 60 * 1000
  if twentyFourHours ≤ now - lastReset then
    { p with dailyQuestionCount := 0, lastQuestionResetDate := now }
  else p

/-- `hasExceededLimit` from LessonView.tsx (lines 102-104):
`isFree && questionCount >= 100` with
`questionCount = userProfile?.dailyQuestionCount || 0`. -/
def hasExceededLimit (p : UserProfile) : Bool :=
  let isFree := p.tier == SubscriptionTier.FREE
  let questionCount := p.dailyQuestionCount
  isFree && decide (100 ≤ questionCount)

/-- JS `String.prototype.trim`: strip leading and trailing whitespace. -/
def jsTrim (s : String) : String :=
  String.mk (((s.data.dropWhile Char.isWhitespace).reverse.dropWhile
    Char.isWhitespace).reverse)

/-- The guard of `handleSendMessage` from LessonView.tsx (line 256):
`if (!chatInput.trim() || isTyping || streamingMessage || hasExceededLimit)
return;` — a silent early return, no exception.  Returns the trimmed
message that is sent, or `none` when the send is blocked. -/
def handleSendMessage (p : UserProfile) (chatInput : String) (isTyping : Bool)
    (streamingMessage : String) : Option String :=
  if jsTrim chatInput == "" || isTyping || streamingMessage != "" || hasExceededLimit p then
    none
  else
    some (jsTrim chatInput)

/-- `isLevelLocked` from Dashboard.tsx (lines 62-66). -/
def isLevelLocked (tier : SubscriptionTier) (lv : DifficultyLevel) : Bool :=
  if lv == DifficultyLevel.BEGINNER then false
  else tier == SubscriptionTier.FREE

/-- The `Tab` union type from LessonView.tsx (line 19). -/
inductive Tab where
  | learn
  | review
  | ask
  | exam
  | voice
  | next
deriving DecidableEq, Repr

/-- `isGated` from `TabButton` in LessonView.tsx (line 293):
`isFree && (id === 'exam')`. -/
def tabGated (tier : SubscriptionTier) (id : Tab) : Bool :=
  (tier == SubscriptionTier.FREE) && (id == Tab.exam)

/-- The exam-tab content gate from LessonView.tsx (line 474):
`isFree ? <LockScreen .../> : <QuizView .../>`. -/
def examQuizLocked (tier : SubscriptionTier) : Bool :=
  tier == SubscriptionTier.FREE

/-- `isPremium` from Profile.tsx (line 25): `user.tier !== FREE`. -/
def isPremiumTier (tier : SubscriptionTier) : Bool :=
  tier != SubscriptionTier.FREE

/-- The document-analysis gate of `handleFileSelect` in Profile.tsx
(lines 31-34): the upload is blocked (upgrade prompt instead of analysis)
exactly when `!isPremium`. -/
def documentAnalysisLocked (tier : SubscriptionTier) : Bool :=
  !(isPremiumTier tier)

/-- The profile update of `handleFileSelect` in Profile.tsx (lines 51-54):
`uploadedDocuments: [newDoc, ...(user.uploadedDocuments || [])]`. -/
def addDocument (p : UserProfile) (doc : DocumentAnalysis) : UserProfile :=
  { p with uploadedDocuments := doc :: p.uploadedDocuments }

/-- Modelled from the spec: `upgradeTier` lives in
src/services/firebaseService.ts (`mockAuth.upgradeTier`), which is not
among the provided sources.  Spec section 4.1: "Sets `tier = targetTier`"
(the external payment approval is out of scope; on failure the profile is
unchanged, so only the success transition is modelled). -/
def upgradeTier (p : UserProfile) (target : SubscriptionTier) : UserProfile :=
  { p with tier := target }

/-- Modelled from the spec: the profile produced at registration by
`mockAuth.register` (src/services/firebaseService.ts, not among the
provided sources).  Spec section 3, Lifecycle: "created at registration
with all counters zeroed"; email, preferred level and exam type come from
the registration form. -/
def freshProfile (email : String) (preferredLevel : String)
    (examType : Option String) : UserProfile :=
  { email := email
    displayName := none
    learningProgress := 0
    completedTopics := []
    quizScores := []
    tier := SubscriptionTier.FREE
    streak := 0
    lastActiveDate := none
    weakTopics := []
    preferredLevel := preferredLevel
    examType := examType
    dailyQuestionCount := 0
    lastQuestionResetDate := 0
    uploadedDocuments := [] }

/-- Profiles reachable from a fresh registration profile by the transition
operations of the state machine.  Every `recordActivity` step carries a
`Date.now()` timestamp, which is always positive (milliseconds since the
1970 epoch, taken at the current time). -/
inductive Reachable (dateOf : Int → Int) : UserProfile → Prop where
  | fresh (email preferredLevel : String) (examType : Option String) :
      Reachable dateOf (freshProfile email preferredLevel examType)
  | record (p : UserProfile) (topic : String) (score : Nat)
      (difficulty : DifficultyLevel) (isMasteryOnly : Bool) (now : Int)
      (hp : Reachable dateOf p) (hnow : 0 < now) :
      Reachable dateOf (recordActivity dateOf p topic score difficulty isMasteryOnly now)
  | increment (p : UserProfile) (hp : Reachable dateOf p) :
      Reachable dateOf (incrementQuestionCount p)
  | resetQuota (p : UserProfile) (now : Int) (hp : Reachable dateOf p) :
      Reachable dateOf (checkAndResetDailyLimit p now)
  | upgrade (p : UserProfile) (target : SubscriptionTier) (hp : Reachable dateOf p) :
      Reachable dateOf (upgradeTier p target)
  | addDoc (p : UserProfile) (doc : DocumentAnalysis) (hp : Reachable dateOf p) :
      Reachable dateOf (addDocument p doc)

/-- The score of the most recently recorded quiz record for a topic. -/
def lastScoreFor (t : String) (l : List QuizScoreRecord) : Option Nat :=
  l.foldl (fun acc r => if r.topic == t then some r.score else acc) none

/-- "Some recorded score for the topic is below 70 and no later score of at
least 85 has been recorded for that topic": the record list splits as
`l1 ++ r :: l2` with `r` a sub-70 record for the topic and no record for
the topic in the suffix `l2` reaching 85. -/
def WeakSince (t : String) (l : List QuizScoreRecord) : Prop :=
  ∃ l1 r l2, l = l1 ++ r :: l2 ∧ r.topic = t ∧ r.score < 70 ∧
    ∀ r' ∈ l2, r'.topic = t → r'.score < 85

/-- A concrete calendar-date function for witnesses: UTC day index of a
millisecond timestamp. -/
def exDateOf : Int → Int := fun t => t / 86400000

/-- A concrete fresh profile. -/
def exProfile0 : UserProfile := freshProfile "student@example.com" "High School" none

/-- After one quiz on topic "T" with score 60. -/
def exProfile1 : UserProfile :=
  recordActivity exDateOf exProfile0 "T" 60 DifficultyLevel.BEGINNER false 1

/-- After a further quiz on topic "T" with score 75. -/
def exProfile2 : UserProfile :=
  recordActivity exDateOf exProfile1 "T" 75 DifficultyLevel.BEGINNER false 2

/-- A FREE profile with dailyQuestionCount = 99 (spec scenario 5). -/
def exFree99 : UserProfile :=
  { freshProfile "student@example.com" "High School" none with
    dailyQuestionCount := 99 }

/-- exFree99 after one question increment. -/
def exFree100 : UserProfile := incrementQuestionCount exFree99

/-- Streak chain, day 0 (timestamp 1): streak 1. -/
def exS1 : UserProfile :=
  recordActivity exDateOf exProfile0 "A" 80 DifficultyLevel.BEGINNER false 1

/-- Streak chain, day 1: streak 2. -/
def exS2 : UserProfile :=
  recordActivity exDateOf exS1 "A" 80 DifficultyLevel.BEGINNER false 86400001

/-- Streak chain, day 2: streak 3. -/
def exS3 : UserProfile :=
  recordActivity exDateOf exS2 "A" 80 DifficultyLevel.BEGINNER false 172800001

/-- Streak chain, day 3 (first call of the day): streak 4. -/
def exS4 : UserProfile :=
  recordActivity exDateOf exS3 "A" 80 DifficultyLevel.BEGINNER false 259200001

theorem mem_jsSetDedup (x : String) (l : List String) : x ∈ jsSetDedup l ↔ x ∈ l := by
  have h : ∀ (l acc : List String) (x : String),
      x ∈ l.foldl (fun acc y => if y ∈ acc then acc else acc ++ [y]) acc ↔ x ∈ acc ∨ x ∈ l := by
    intro l
    induction l with
    | nil => intro acc x; simp
    | cons y l ih =>
      intro acc x
      simp only [List.foldl_cons]
      rw [ih]
      by_cases hy : y ∈ acc <;> by_cases hxy : x = y <;>
        subst_eqs <;> simp [hy] <;> tauto
  simpa using h l [] x

theorem append_singleton_split {α : Type} {l l1 l2 : List α} {b r : α}
    (h : l ++ [b] = l1 ++ r :: l2) :
    (l1 = l ∧ r = b ∧ l2 = []) ∨ ∃ l2', l = l1 ++ r :: l2' ∧ l2 = l2' ++ [b] := by
  rcases List.eq_nil_or_concat l2 with rfl | ⟨l2', b', rfl⟩
  · left
    have hlen : l.length = l1.length := by
      have h' := congrArg List.length h
      simp [List.length_append] at h'
      omega
    obtain ⟨h1, h2⟩ := List.append_inj h hlen
    simp only [List.cons.injEq, and_true] at h2
    exact ⟨h1.symm, h2.symm, rfl⟩
  · rw [List.concat_eq_append] at h ⊢
    right
    rw [show l1 ++ r :: (l2' ++ [b']) = (l1 ++ r :: l2') ++ [b'] by simp] at h
    have hlen : l.length = (l1 ++ r :: l2').length := by
      have h' := congrArg List.length h
      simp [List.length_append] at h' ⊢
      omega
    obtain ⟨h1, h2⟩ := List.append_inj h hlen
    simp only [List.cons.injEq, and_true] at h2
    exact ⟨l2', h1, by rw [h2]⟩

theorem weakSince_nil (t : String) : ¬ WeakSince t [] := by
  rintro ⟨l1, r, l2, h, -, -, -⟩
  have h' := congrArg List.length h
  simp [List.length_append] at h'
  omega

theorem weakSince_append_other {t : String} {l : List QuizScoreRecord}
    {b : QuizScoreRecord} (hb : b.topic ≠ t) :
    WeakSince t (l ++ [b]) ↔ WeakSince t l := by
  constructor
  · rintro ⟨l1, r, l2, h, ht, hs, hall⟩
    rcases append_singleton_split h with ⟨h1, hrb, hl2⟩ | ⟨l2', hl, hl2⟩
    · subst hrb; exact absurd ht hb
    · exact ⟨l1, r, l2', hl, ht, hs, fun r' hr' => hall r' (by simp [hl2, hr'])⟩
  · rintro ⟨l1, r, l2, rfl, ht, hs, hall⟩
    refine ⟨l1, r, l2 ++ [b], by simp, ht, hs, ?_⟩
    intro r' hr' htop
    rcases List.mem_append.1 hr' with h | h
    · exact hall r' h htop
    · simp only [List.mem_singleton] at h; subst h; exact absurd htop hb

theorem weakSince_append_low {t : String} {l : List QuizScoreRecord}
    {b : QuizScoreRecord} (hb : b.topic = t) (hs : b.score < 70) :
    WeakSince t (l ++ [b]) :=
  ⟨l, b, [], rfl, hb, hs, by simp⟩

theorem weakSince_append_high {t : String} {l : List QuizScoreRecord}
    {b : QuizScoreRecord} (hb : b.topic = t) (hs : 85 ≤ b.score) :
    ¬ WeakSince t (l ++ [b]) := by
  rintro ⟨l1, r, l2, h, ht, hlow, hall⟩
  rcases append_singleton_split h with ⟨h1, hrb, hl2⟩ | ⟨l2', hl, hl2⟩
  · subst hrb; omega
  · have := hall b (by simp [hl2]) hb
    omega

theorem weakSince_append_mid {t : String} {l : List QuizScoreRecord}
    {b : QuizScoreRecord} (hb : b.topic = t) (h70 : 70 ≤ b.score)
    (h85 : b.score < 85) : WeakSince t (l ++ [b]) ↔ WeakSince t l := by
  constructor
  · rintro ⟨l1, r, l2, h, ht, hs, hall⟩
    rcases append_singleton_split h with ⟨h1, hrb, hl2⟩ | ⟨l2', hl, hl2⟩
    · subst hrb; omega
    · exact ⟨l1, r, l2', hl, ht, hs, fun r' hr' => hall r' (by simp [hl2, hr'])⟩
  · rintro ⟨l1, r, l2, rfl, ht, hs, hall⟩
    refine ⟨l1, r, l2 ++ [b], by simp, ht, hs, ?_⟩
    intro r' hr' htop
    rcases List.mem_append.1 hr' with h | h
    · exact hall r' h htop
    · simp only [List.mem_singleton] at h; subst h; omega

theorem recordActivity_quizScores (dateOf : Int → Int) (p : UserProfile)
    (topic : String) (score : Nat) (difficulty : DifficultyLevel) (m : Bool)
    (now : Int) :
    (recordActivity dateOf p topic score difficulty m now).quizScores =
      p.quizScores ++
        [{ topic := topic, score := score, date := now, difficulty := difficulty }] := rfl

theorem recordActivity_weakTopics (dateOf : Int → Int) (p : UserProfile)
    (topic : String) (score : Nat) (difficulty : DifficultyLevel) (m : Bool)
    (now : Int) :
    (recordActivity dateOf p topic score difficulty m now).weakTopics =
      (if score < 70 ∧ topic ∉ p.weakTopics then p.weakTopics ++ [topic]
       else if 85 ≤ score then p.weakTopics.filter (fun t => t != topic)
       else p.weakTopics) := rfl

theorem recordActivity_streak (dateOf : Int → Int) (p : UserProfile)
    (topic : String) (score : Nat) (difficulty : DifficultyLevel) (m : Bool)
    (now : Int) :
    (recordActivity dateOf p topic score difficulty m now).streak =
      (if jsIsNewDay dateOf p.lastActiveDate now then p.streak + 1
       else if p.streak = 0 then 1 else p.streak) := rfl

theorem recordActivity_learningProgress (dateOf : Int → Int) (p : UserProfile)
    (topic : String) (score : Nat) (difficulty : DifficultyLevel) (m : Bool)
    (now : Int) :
    (recordActivity dateOf p topic score difficulty m now).learningProgress =
      min 100 (p.learningProgress + (if m then 2 else 5)) := rfl

theorem recordActivity_completedTopics (dateOf : Int → Int) (p : UserProfile)
    (topic : String) (score : Nat) (difficulty : DifficultyLevel) (m : Bool)
    (now : Int) :
    (recordActivity dateOf p topic score difficulty m now).completedTopics =
      jsSetDedup (p.completedTopics ++ [topic]) := rfl

theorem recordActivity_lastActiveDate (dateOf : Int → Int) (p : UserProfile)
    (topic : String) (score : Nat) (difficulty : DifficultyLevel) (m : Bool)
    (now : Int) :
    (recordActivity dateOf p topic score difficulty m now).lastActiveDate =
      some now := rfl

theorem checkAndResetDailyLimit_eq (p : UserProfile) (now : Int) :
    checkAndResetDailyLimit p now =
      if (86400000 : Int) ≤ now - p.lastQuestionResetDate then
        { p with dailyQuestionCount := 0, lastQuestionResetDate := now }
      else p := rfl

theorem weak_invariant {dateOf : Int → Int} {p : UserProfile}
    (h : Reachable dateOf p) :
    ∀ t, t ∈ p.weakTopics ↔ WeakSince t p.quizScores := by
  induction h with
  | fresh email lvl ex =>
    intro t
    simp only [freshProfile]
    simp [weakSince_nil]
  | record p topic score difficulty m now hp hnow ih =>
    intro t
    rw [recordActivity_weakTopics, recordActivity_quizScores]
    by_cases ht : t = topic
    · subst ht
      by_cases h70 : score < 70
      · by_cases hmem : t ∈ p.weakTopics
        · rw [if_neg (by tauto), if_neg (by omega)]
          exact iff_of_true hmem (weakSince_append_low rfl h70)
        · rw [if_pos ⟨h70, hmem⟩]
          exact iff_of_true (by simp) (weakSince_append_low rfl h70)
      · by_cases h85 : 85 ≤ score
        · rw [if_neg (by tauto), if_pos h85]
          exact iff_of_false (by simp [List.mem_filter])
            (weakSince_append_high rfl h85)
        · rw [if_neg (by tauto), if_neg h85]
          rw [@weakSince_append_mid t p.quizScores
            { topic := t, score := score, date := now, difficulty := difficulty }
            rfl (show (70 : Nat) ≤ score by omega) (show score < 85 by omega)]
          exact ih t
    · have hbt : topic ≠ t := fun hh => ht hh.symm
      rw [@weakSince_append_other t p.quizScores
        { topic := topic, score := score, date := now, difficulty := difficulty }
        hbt, ← ih t]
      split
      · simp [ht]
      · split
        · simp [List.mem_filter, bne_iff_ne, ht]
        · exact Iff.rfl
  | increment p hp ih => exact ih
  | resetQuota p now hp ih =>
    intro t
    rw [checkAndResetDailyLimit_eq]
    split
    · exact ih t
    · exact ih t
  | upgrade p target hp ih => exact ih
  | addDoc p doc hp ih => exact ih

theorem streak_invariant {dateOf : Int → Int} {p : UserProfile}
    (h : Reachable dateOf p) :
    ∀ d, p.lastActiveDate = some d → 1 ≤ p.streak ∧ 0 < d := by
  induction h with
  | fresh email lvl ex =>
    intro d hd
    simp [freshProfile] at hd
  | record p topic score difficulty m now hp hnow ih =>
    intro d hd
    rw [recordActivity_lastActiveDate] at hd
    rw [recordActivity_streak]
    refine ⟨?_, ?_⟩
    · split
      · omega
      · split <;> omega
    · cases hd
      exact hnow
  | increment p hp ih => exact ih
  | resetQuota p now hp ih =>
    intro d hd
    rw [checkAndResetDailyLimit_eq] at hd ⊢
    revert hd
    split <;> exact ih d
  | upgrade p target hp ih => exact ih
  | addDoc p doc hp ih => exact ih

theorem progress_invariant {dateOf : Int → Int} {p : UserProfile}
    (h : Reachable dateOf p) : p.learningProgress ≤ 100 := by
  induction h with
  | fresh email lvl ex => simp [freshProfile]
  | record p topic score difficulty m now hp hnow ih =>
    rw [recordActivity_learningProgress]
    exact min_le_left _ _
  | increment p hp ih => exact ih
  | resetQuota p now hp ih =>
    rw [checkAndResetDailyLimit_eq]
    split <;> exact ih
  | upgrade p target hp ih => exact ih
  | addDoc p doc hp ih => exact ih

theorem completed_invariant {dateOf : Int → Int} {p : UserProfile}
    (h : Reachable dateOf p) :
    ∀ r ∈ p.quizScores, r.topic ∈ p.completedTopics := by
  induction h with
  | fresh email lvl ex =>
    intro r hr
    simp [freshProfile] at hr
  | record p topic score difficulty m now hp hnow ih =>
    intro r hr
    rw [recordActivity_quizScores] at hr
    rw [recordActivity_completedTopics, mem_jsSetDedup, List.mem_append]
    rcases List.mem_append.1 hr with h | h
    · exact Or.inl (ih r h)
    · simp only [List.mem_singleton] at h
      subst h
      simp
  | increment p hp ih => exact ih
  | resetQuota p now hp ih =>
    intro r hr
    rw [checkAndResetDailyLimit_eq] at hr ⊢
    revert hr
    split <;> exact ih r
  | upgrade p target hp ih => exact ih
  | addDoc p doc hp ih => exact ih

theorem exProfile1_reachable : Reachable exDateOf exProfile1 :=
  Reachable.record exProfile0 "T" 60 DifficultyLevel.BEGINNER false 1
    (Reachable.fresh "student@example.com" "High School" none) (by decide)

theorem exProfile2_reachable : Reachable exDateOf exProfile2 :=
  Reachable.record exProfile1 "T" 75 DifficultyLevel.BEGINNER false 2
    exProfile1_reachable (by decide)

theorem exS4_reachable : Reachable exDateOf exS4 :=
  Reachable.record exS3 "A" 80 DifficultyLevel.BEGINNER false 259200001
    (Reachable.record exS2 "A" 80 DifficultyLevel.BEGINNER false 172800001
      (Reachable.record exS1 "A" 80 DifficultyLevel.BEGINNER false 86400001
        (Reachable.record exProfile0 "A" 80 DifficultyLevel.BEGINNER false 1
          (Reachable.fresh "student@example.com" "High School" none)
          (by decide))
        (by decide))
      (by decide))
    (by decide)

/-- C1 counterexample: the claim as stated is false on the code.  The
reachable profile obtained from a fresh profile by recording score 60 and
then score 75 for topic "T" still lists "T" in weakTopics, although the
most recently recorded score for "T" is 75, which is not below 70 (and
"no later score of at least 85" after the most recent one is vacuous). -/
theorem claim_C1_counterexample :
    Reachable exDateOf exProfile2 ∧
    "T" ∈ exProfile2.weakTopics ∧
    lastScoreFor "T" exProfile2.quizScores = some 75 ∧
    ¬ ("T" ∈ exProfile2.weakTopics ↔
        ∃ s, lastScoreFor "T" exProfile2.quizScores = some s ∧ s < 70) := by
  refine ⟨exProfile2_reachable, by decide, by decide, ?_⟩
  intro hiff
  obtain ⟨s, hs, hlt⟩ := hiff.1 (by decide)
  have h75 : lastScoreFor "T" exProfile2.quizScores = some 75 := by decide
  rw [hs] at h75
  have : s = 75 := Option.some.inj h75
  omega

/-- C1, amended: for every profile reachable from a fresh profile, a topic
is a member of weakTopics if and only if some score below 70 has been
recorded for it and no later score of at least 85 has been recorded for
it. -/
theorem claim_C1_weak_topics_amended (dateOf : Int → Int) (p : UserProfile)
    (h : Reachable dateOf p) (t : String) :
    t ∈ p.weakTopics ↔ WeakSince t p.quizScores :=
  weak_invariant h t

/-- C1 witness: the amended invariant at the concrete reachable profile
with quiz history [("T", 60), ("T", 75)]. -/
theorem claim_C1_weak_topics_amended_witness :
    "T" ∈ exProfile2.weakTopics ↔ WeakSince "T" exProfile2.quizScores :=
  claim_C1_weak_topics_amended exDateOf exProfile2 exProfile2_reachable "T"

/-- C2: a single recordActivity call updates weakTopics as follows.  If the
score is below 70 and the lesson topic is absent, the topic is appended; if
the score is at least 85 the topic is removed (all occurrences filtered
out) and every other topic keeps its membership; for every score in
[70,85) the weakTopics list is left exactly as it was. -/
theorem claim_C2_weak_topics_update (dateOf : Int → Int) (p : UserProfile)
    (topic : String) (score : Nat) (difficulty : DifficultyLevel) (m : Bool)
    (now : Int) :
    (score < 70 → topic ∉ p.weakTopics →
      (recordActivity dateOf p topic score difficulty m now).weakTopics =
        p.weakTopics ++ [topic]) ∧
    (85 ≤ score →
      (recordActivity dateOf p topic score difficulty m now).weakTopics =
        p.weakTopics.filter (fun t => t != topic) ∧
      topic ∉ (recordActivity dateOf p topic score difficulty m now).weakTopics ∧
      (∀ t, t ≠ topic →
        (t ∈ (recordActivity dateOf p topic score difficulty m now).weakTopics ↔
          t ∈ p.weakTopics))) ∧
    (70 ≤ score → score < 85 →
      (recordActivity dateOf p topic score difficulty m now).weakTopics =
        p.weakTopics) := by
  refine ⟨?_, ?_, ?_⟩
  · intro h70 hmem
    rw [recordActivity_weakTopics, if_pos ⟨h70, hmem⟩]
  · intro h85
    have heq : (recordActivity dateOf p topic score difficulty m now).weakTopics =
        p.weakTopics.filter (fun t => t != topic) := by
      rw [recordActivity_weakTopics, if_neg (by omega), if_pos h85]
    refine ⟨heq, ?_, ?_⟩
    · rw [heq]
      simp [List.mem_filter]
    · intro t ht
      rw [heq]
      simp [List.mem_filter, bne_iff_ne, ht]
  · intro h70 h85
    rw [recordActivity_weakTopics, if_neg (by omega), if_neg (by omega)]

/-- C2 witness: the spec's concrete scenario.  On a fresh profile (empty
weakTopics), recording ("Calculus", 60) appends "Calculus"; a later
("Calculus", 90) removes it again. -/
theorem claim_C2_weak_topics_update_witness :
    (60 : Nat) < 70 ∧ "Calculus" ∉ exProfile0.weakTopics ∧
    (recordActivity exDateOf exProfile0 "Calculus" 60 DifficultyLevel.BEGINNER false 1).weakTopics =
      exProfile0.weakTopics ++ ["Calculus"] ∧
    (recordActivity exDateOf exProfile0 "Calculus" 60 DifficultyLevel.BEGINNER false 1).weakTopics =
      ["Calculus"] ∧
    (85 : Nat) ≤ 90 ∧
    (recordActivity exDateOf
        (recordActivity exDateOf exProfile0 "Calculus" 60 DifficultyLevel.BEGINNER false 1)
        "Calculus" 90 DifficultyLevel.BEGINNER false 2).weakTopics =
      (recordActivity exDateOf exProfile0 "Calculus" 60 DifficultyLevel.BEGINNER false 1).weakTopics.filter
        (fun t => t != "Calculus") ∧
    (recordActivity exDateOf
        (recordActivity exDateOf exProfile0 "Calculus" 60 DifficultyLevel.BEGINNER false 1)
        "Calculus" 90 DifficultyLevel.BEGINNER false 2).weakTopics = [] :=
  ⟨by decide, by decide,
    (claim_C2_weak_topics_update exDateOf exProfile0 "Calculus" 60
      DifficultyLevel.BEGINNER false 1).1 (by decide) (by decide),
    by decide, by decide,
    ((claim_C2_weak_topics_update exDateOf
      (recordActivity exDateOf exProfile0 "Calculus" 60 DifficultyLevel.BEGINNER false 1)
      "Calculus" 90 DifficultyLevel.BEGINNER false 2).2.1 (by decide)).1,
    by decide⟩

/-- C4: for every profile and timestamp, checkAndResetDailyLimit (the
spec's resetDailyQuotaIfExpired) zeroes dailyQuestionCount and stamps
lastQuestionResetDate with now when at least 86,400,000 ms have elapsed
since the last reset, and returns the profile completely unchanged
otherwise. -/
theorem claim_C4_quota_reset (p : UserProfile) (now : Int) :
    ((86400000 : Int) ≤ now - p.lastQuestionResetDate →
      checkAndResetDailyLimit p now =
        { p with dailyQuestionCount := 0, lastQuestionResetDate := now }) ∧
    (now - p.lastQuestionResetDate < 86400000 →
      checkAndResetDailyLimit p now = p) := by
  rw [checkAndResetDailyLimit_eq]
  constructor
  · intro h
    rw [if_pos h]
  · intro h
    rw [if_neg (by omega)]

/-- C4 witness: with lastQuestionResetDate = now - 86400001 the reset fires
and yields dailyQuestionCount = 0, lastQuestionResetDate = now. -/
theorem claim_C4_quota_reset_witness :
    (86400000 : Int) ≤ 86400001 - exProfile0.lastQuestionResetDate ∧
    checkAndResetDailyLimit exProfile0 86400001 =
      { exProfile0 with dailyQuestionCount := 0, lastQuestionResetDate := 86400001 } ∧
    (checkAndResetDailyLimit exProfile0 86400001).dailyQuestionCount = 0 ∧
    (checkAndResetDailyLimit exProfile0 86400001).lastQuestionResetDate = 86400001 :=
  ⟨by decide, (claim_C4_quota_reset exProfile0 86400001).1 (by decide),
    by decide, by decide⟩

/-- C5: checkAndResetDailyLimit is idempotent for a fixed now: applying it
twice yields exactly the profile obtained by applying it once. -/
theorem claim_C5_reset_idempotent (p : UserProfile) (now : Int) :
    checkAndResetDailyLimit (checkAndResetDailyLimit p now) now =
      checkAndResetDailyLimit p now := by
  rw [checkAndResetDailyLimit_eq p now]
  split
  · rw [checkAndResetDailyLimit_eq,
      if_neg (show ¬ (86400000 : Int) ≤ now - now by omega)]
  · rw [checkAndResetDailyLimit_eq]
    split
    · omega
    · rfl

/-- C9: the feature gates for intermediate/advanced difficulty, the exam
quiz and document analysis are each locked exactly for the FREE tier, so
PREMIUM and PRO are gated identically on all three. -/
theorem claim_C9_tier_gating (tier : SubscriptionTier) :
    isLevelLocked tier DifficultyLevel.INTERMEDIATE = (tier == SubscriptionTier.FREE) ∧
    isLevelLocked tier DifficultyLevel.ADVANCED = (tier == SubscriptionTier.FREE) ∧
    isLevelLocked tier DifficultyLevel.BEGINNER = false ∧
    tabGated tier Tab.exam = (tier == SubscriptionTier.FREE) ∧
    examQuizLocked tier = (tier == SubscriptionTier.FREE) ∧
    documentAnalysisLocked tier = (tier == SubscriptionTier.FREE) ∧
    (∀ lv, isLevelLocked SubscriptionTier.PREMIUM lv = isLevelLocked SubscriptionTier.PRO lv) ∧
    tabGated SubscriptionTier.PREMIUM Tab.exam = tabGated SubscriptionTier.PRO Tab.exam ∧
    examQuizLocked SubscriptionTier.PREMIUM = examQuizLocked SubscriptionTier.PRO ∧
    documentAnalysisLocked SubscriptionTier.PREMIUM = documentAnalysisLocked SubscriptionTier.PRO := by
  cases tier <;>
    refine ⟨rfl, rfl, rfl, rfl, rfl, rfl, ?_, rfl, rfl, rfl⟩ <;>
    intro lv <;> cases lv <;> rfl

/-- C10: recordActivity modifies only learningProgress, completedTopics,
quizScores, streak, lastActiveDate and weakTopics; email, tier,
displayName, preferredLevel, examType, dailyQuestionCount,
lastQuestionResetDate and uploadedDocuments are unchanged. -/
theorem claim_C10_record_frame (dateOf : Int → Int) (p : UserProfile)
    (topic : String) (score : Nat) (difficulty : DifficultyLevel) (m : Bool)
    (now : Int) :
    (recordActivity dateOf p topic score difficulty m now).email = p.email ∧
    (recordActivity dateOf p topic score difficulty m now).tier = p.tier ∧
    (recordActivity dateOf p topic score difficulty m now).displayName = p.displayName ∧
    (recordActivity dateOf p topic score difficulty m now).preferredLevel = p.preferredLevel ∧
    (recordActivity dateOf p topic score difficulty m now).examType = p.examType ∧
    (recordActivity dateOf p topic score difficulty m now).dailyQuestionCount = p.dailyQuestionCount ∧
    (recordActivity dateOf p topic score difficulty m now).lastQuestionResetDate = p.lastQuestionResetDate ∧
    (recordActivity dateOf p topic score difficulty m now).uploadedDocuments = p.uploadedDocuments :=
  ⟨rfl, rfl, rfl, rfl, rfl, rfl, rfl, rfl⟩

/-- C3: incrementQuestionCount adds exactly 1 to dailyQuestionCount with no
upper bound; hasExceededLimit holds iff the tier is FREE and the count is
at least 100 (so PREMIUM and PRO profiles are never blocked); and the chat
guard is a silent pre-check — with otherwise valid send conditions,
handleSendMessage returns none (no error is raised) exactly when the FREE
quota is exhausted. -/
theorem claim_C3_question_limit :
    (∀ p, (incrementQuestionCount p).dailyQuestionCount = p.dailyQuestionCount + 1) ∧
    (∀ p, hasExceededLimit p = true ↔
      (p.tier = SubscriptionTier.FREE ∧ 100 ≤ p.dailyQuestionCount)) ∧
    (∀ p, p.tier ≠ SubscriptionTier.FREE → hasExceededLimit p = false) ∧
    (∀ (p : UserProfile) (input : String), jsTrim input ≠ "" →
      (handleSendMessage p input false "" = none ↔
        (p.tier = SubscriptionTier.FREE ∧ 100 ≤ p.dailyQuestionCount))) := by
  have hmain : ∀ p : UserProfile, hasExceededLimit p = true ↔
      (p.tier = SubscriptionTier.FREE ∧ 100 ≤ p.dailyQuestionCount) := by
    intro p
    simp [hasExceededLimit]
  refine ⟨fun p => rfl, hmain, ?_, ?_⟩
  · intro p h
    cases hbb : hasExceededLimit p
    · rfl
    · exact absurd ((hmain p).1 hbb).1 h
  · intro p input h
    have htrim : (jsTrim input == "") = false := by
      simpa using h
    rw [← hmain p]
    by_cases hb : hasExceededLimit p = true
    · simp [handleSendMessage, htrim, hb]
    · simp [handleSendMessage, htrim, hb]

/-- C3 witness: the FREE profile at 99 questions reaches 100 after one
increment and is then locked, while a PREMIUM profile with the same count
is not. -/
theorem claim_C3_question_limit_witness :
    (incrementQuestionCount exFree99).dailyQuestionCount = 100 ∧
    hasExceededLimit exFree100 = true ∧
    jsTrim "hello" ≠ "" ∧
    handleSendMessage exFree100 "hello" false "" = none ∧
    hasExceededLimit (upgradeTier exFree100 SubscriptionTier.PREMIUM) = false := by
  refine ⟨?_, ?_, by decide, ?_, ?_⟩
  · rw [claim_C3_question_limit.1 exFree99]
    decide
  · exact (claim_C3_question_limit.2.1 exFree100).2 ⟨by decide, by decide⟩
  · exact (claim_C3_question_limit.2.2.2 exFree100 "hello" (by decide)).2
      ⟨by decide, by decide⟩
  · exact claim_C3_question_limit.2.2.1
      (upgradeTier exFree100 SubscriptionTier.PREMIUM) (by decide)

/-- C6: recordActivity increments streak by exactly 1 when the calendar
date of lastActiveDate differs from the calendar date of now (and a fresh
profile, whose lastActiveDate is unset, moves to streak 1), and leaves
streak unchanged when the calendar dates are equal — for profiles
reachable from registration, since their timestamps are genuine positive
clock readings and their streak is at least 1 once a day was recorded. -/
theorem claim_C6_streak :
    (∀ (dateOf : Int → Int) (p : UserProfile) (topic : String) (score : Nat)
      (difficulty : DifficultyLevel) (m : Bool) (now d : Int),
      p.lastActiveDate = some d → dateOf d ≠ dateOf now →
      (recordActivity dateOf p topic score difficulty m now).streak = p.streak + 1) ∧
    (∀ (dateOf : Int → Int) (p : UserProfile) (topic : String) (score : Nat)
      (difficulty : DifficultyLevel) (m : Bool) (now d : Int),
      Reachable dateOf p → p.lastActiveDate = some d → dateOf d = dateOf now →
      (recordActivity dateOf p topic score difficulty m now).streak = p.streak) ∧
    (∀ (dateOf : Int → Int) (email lvl : String) (ex : Option String)
      (topic : String) (score : Nat) (difficulty : DifficultyLevel) (m : Bool)
      (now : Int),
      (recordActivity dateOf (freshProfile email lvl ex) topic score difficulty m
        now).streak = 1) := by
  refine ⟨?_, ?_, ?_⟩
  · intro dateOf p topic score difficulty m now d hd hne
    rw [recordActivity_streak, hd]
    have hb : jsIsNewDay dateOf (some d) now = true := by
      simp [jsIsNewDay, hne]
    rw [hb]
    simp
  · intro dateOf p topic score difficulty m now d hre hd heq
    obtain ⟨hstreak, hdpos⟩ := streak_invariant hre d hd
    rw [recordActivity_streak, hd]
    have hb : jsIsNewDay dateOf (some d) now = false := by
      simp [jsIsNewDay, heq]
      omega
    rw [hb]
    have hs0 : ¬ p.streak = 0 := by omega
    simp [hs0]
  · intro dateOf email lvl ex topic score difficulty m now
    rw [recordActivity_streak]
    simp [jsIsNewDay, freshProfile]

/-- C6 witness: the spec's concrete scenario on a reachable chain.  With
streak 3 and last activity on day 2, the first call on day 3 yields streak
4; a second call later the same day leaves it at 4; and a fresh profile
moves to streak 1. -/
theorem claim_C6_streak_witness :
    exS3.streak = 3 ∧
    exDateOf 172800001 ≠ exDateOf 259200001 ∧
    exS4.streak = 4 ∧
    exDateOf 259200001 = exDateOf 259200500 ∧
    (recordActivity exDateOf exS4 "A" 80 DifficultyLevel.BEGINNER false
      259200500).streak = 4 ∧
    (recordActivity exDateOf exProfile0 "A" 80 DifficultyLevel.BEGINNER false
      1).streak = 1 := by
  refine ⟨by decide, by decide, ?_, by decide, ?_, ?_⟩
  · have h2 : exS4.streak = exS3.streak + 1 :=
      claim_C6_streak.1 exDateOf exS3 "A" 80 DifficultyLevel.BEGINNER false
        259200001 172800001 (by decide) (by decide)
    rw [h2]
    decide
  · have h2 : (recordActivity exDateOf exS4 "A" 80 DifficultyLevel.BEGINNER false
        259200500).streak = exS4.streak :=
      claim_C6_streak.2.1 exDateOf exS4 "A" 80 DifficultyLevel.BEGINNER false
        259200500 259200001 exS4_reachable (by decide) (by decide)
    rw [h2]
    decide
  · exact claim_C6_streak.2.2 exDateOf "student@example.com" "High School" none
      "A" 80 DifficultyLevel.BEGINNER false 1

/-- C7: for a profile with learningProgress within [0,100], recordActivity
sets learningProgress to min 100 (learningProgress + (isMasteryOnly ? 2 :
5)), which never exceeds 100; and along every reachable profile
learningProgress stays at most 100. -/
theorem claim_C7_progress :
    (∀ (dateOf : Int → Int) (p : UserProfile) (topic : String) (score : Nat)
      (difficulty : DifficultyLevel) (m : Bool) (now : Int),
      p.learningProgress ≤ 100 →
      (recordActivity dateOf p topic score difficulty m now).learningProgress =
        min 100 (p.learningProgress + (if m then 2 else 5)) ∧
      (recordActivity dateOf p topic score difficulty m now).learningProgress ≤ 100) ∧
    (∀ (dateOf : Int → Int) (p : UserProfile), Reachable dateOf p →
      p.learningProgress ≤ 100) := by
  constructor
  · intro dateOf p topic score difficulty m now _
    refine ⟨recordActivity_learningProgress dateOf p topic score difficulty m now, ?_⟩
    rw [recordActivity_learningProgress]
    exact min_le_left _ _
  · intro dateOf p h
    exact progress_invariant h

/-- C7 witness: at the fresh profile, one non-mastery activity sets
learningProgress to min 100 (0 + 5) = 5, within bound, and the reachable
exProfile2 is within bound. -/
theorem claim_C7_progress_witness :
    exProfile0.learningProgress ≤ 100 ∧
    (recordActivity exDateOf exProfile0 "T" 90 DifficultyLevel.BEGINNER false
      1).learningProgress = min 100 (exProfile0.learningProgress + 5) ∧
    (recordActivity exDateOf exProfile0 "T" 90 DifficultyLevel.BEGINNER false
      1).learningProgress ≤ 100 ∧
    exProfile2.learningProgress ≤ 100 := by
  refine ⟨by decide, ?_, ?_, ?_⟩
  · exact (claim_C7_progress.1 exDateOf exProfile0 "T" 90 DifficultyLevel.BEGINNER
      false 1 (by decide)).1
  · exact (claim_C7_progress.1 exDateOf exProfile0 "T" 90 DifficultyLevel.BEGINNER
      false 1 (by decide)).2
  · exact claim_C7_progress.2 exDateOf exProfile2 exProfile2_reachable

/-- C8: on every reachable profile, every topic occurring in quizScores is
a member of completedTopics; and a recordActivity call appends exactly one
record to quizScores and unions its topic into completedTopics with
duplicates collapsed. -/
theorem claim_C8_completed_topics :
    (∀ (dateOf : Int → Int) (p : UserProfile), Reachable dateOf p →
      ∀ r ∈ p.quizScores, r.topic ∈ p.completedTopics) ∧
    (∀ (dateOf : Int → Int) (p : UserProfile) (topic : String) (score : Nat)
      (difficulty : DifficultyLevel) (m : Bool) (now : Int),
      (recordActivity dateOf p topic score difficulty m now).quizScores =
        p.quizScores ++
          [{ topic := topic, score := score, date := now, difficulty := difficulty }] ∧
      ∀ x, x ∈ (recordActivity dateOf p topic score difficulty m now).completedTopics ↔
        (x ∈ p.completedTopics ∨ x = topic)) := by
  constructor
  · intro dateOf p h
    exact completed_invariant h
  · intro dateOf p topic score difficulty m now
    refine ⟨recordActivity_quizScores dateOf p topic score difficulty m now, ?_⟩
    intro x
    rw [recordActivity_completedTopics, mem_jsSetDedup, List.mem_append,
      List.mem_singleton]

/-- C8 witness: the reachable exProfile1 contains the record ("T", 60) in
quizScores and "T" in completedTopics; the membership characterization at
the fresh profile. -/
theorem claim_C8_completed_topics_witness :
    ({ topic := "T", score := 60, date := 1,
        difficulty := DifficultyLevel.BEGINNER } : QuizScoreRecord) ∈
      exProfile1.quizScores ∧
    "T" ∈ exProfile1.completedTopics ∧
    ("T" ∈ (recordActivity exDateOf exProfile0 "T" 60 DifficultyLevel.BEGINNER
        false 1).completedTopics ↔
      ("T" ∈ exProfile0.completedTopics ∨ "T" = "T")) := by
  refine ⟨by decide, ?_, ?_⟩
  · exact claim_C8_completed_topics.1 exDateOf exProfile1 exProfile1_reachable
      { topic := "T", score := 60, date := 1,
        difficulty := DifficultyLevel.BEGINNER } (by decide)
  · exact (claim_C8_completed_topics.2 exDateOf exProfile0 "T" 60
      DifficultyLevel.BEGINNER false 1).2 "T"

end TutorX
